import Mathlib

/-!
Verification of the CX2025 cyclocross game core against its design spec.

Shallow embedding conventions:
* Python floats are modelled as `ℚ` where the code only uses field
  operations and comparisons (stamina, balance, terrain, state machine
  timestamps), and as `ℝ` where transcendental functions appear
  (physics drag `pow`, vector length `sqrt`, rotation `atan2`).
* Python exceptions are modelled with `Except`; when the partially
  mutated object matters, the error carries the object state at the
  moment of the raise.
* Each definition is a direct translation of the correspondingly named
  Python function; comments reference `src/` files.
-/

namespace CX2025

/-- Python exception kinds raised by the modelled code. -/
inductive PyExc where
  | valueError
  | attributeError
  deriving DecidableEq, Repr

/-! ### State machine (src/systems/cyclist_state.py, cyclist_states.py,
src/components/state_machine_component.py) -/

/-- The `StateType` enum of rider states. -/
inductive StateType where
  | RIDING
  | CARRYING
  | REMOUNTING
  | CRASHED
  deriving DecidableEq, Repr

open StateType

/-- `can_transition_to` of the four concrete state classes in
`src/systems/cyclist_states.py` (RidingState, CarryingState,
RemountingState, CrashedState). -/
def canTransitionTo : StateType → StateType → Bool
  | RIDING, t => t = CARRYING ∨ t = CRASHED
  | CARRYING, t => t = REMOUNTING ∨ t = CRASHED
  | REMOUNTING, t => t = RIDING ∨ t = CRASHED
  | CRASHED, t => t = REMOUNTING

/-- Observable side effects of a transition: the `exit`/`enter` calls
made on the state objects by `change_state`. -/
inductive SMEvent where
  | exitState (s : StateType)
  | enterState (s : StateType)
  deriving DecidableEq, Repr

/-- State of a `StateMachineComponent`: the keys of `_states`, the
current state (by its type; exactly one state object is registered per
type), the history option fields, and `_transition_time`.  Timestamps
are rationals standing for `time.time()` values. -/
structure StateMachineComponent where
  states : List StateType
  current : Option StateType
  keepHistory : Bool
  maxHistorySize : ℕ
  history : List (StateType × ℚ)
  transitionTime : ℚ
  deriving DecidableEq, Repr

/-- `StateMachineComponent.change_state` (lines 65-116).  `now` stands
for the `time.time()` call used for the history timestamp.  Returns the
boolean result, the machine after the call, and the `exit`/`enter`
calls that were made, in order. -/
def changeState (m : StateMachineComponent) (newStateType : StateType)
    (force : Bool) (now : ℚ) :
    Bool × StateMachineComponent × List SMEvent :=
  if newStateType ∉ m.states then
    (false, m, [])
  else
    match m.current with
    | some cur =>
      if ¬ force ∧ ¬ canTransitionTo cur newStateType then
        (false, m, [])
      else
        let hist :=
          if m.keepHistory then
            let h := m.history ++ [(newStateType, now)]
            if h.length > m.maxHistorySize then h.tail else h
          else m.history
        (true,
         { m with current := some newStateType, history := hist },
         [SMEvent.exitState cur, SMEvent.enterState newStateType])
    | none =>
        let hist :=
          if m.keepHistory then
            let h := m.history ++ [(newStateType, now)]
            if h.length > m.maxHistorySize then h.tail else h
          else m.history
        (true,
         { m with current := some newStateType, history := hist },
         [SMEvent.enterState newStateType])

/-- `StateMachineComponent.update` (lines 118-127): runs the current
state and accumulates `_transition_time`.  The current state's own
`update` effects are outside this component's fields. -/
def smUpdate (m : StateMachineComponent) (dt : ℚ) : StateMachineComponent :=
  match m.current with
  | some _ => { m with transitionTime := m.transitionTime + dt }
  | none => m

/-- `StateMachineComponent.get_time_in_current_state` (lines 161-168). -/
def getTimeInCurrentState (m : StateMachineComponent) : ℚ :=
  m.transitionTime

/-- A machine with all four rider states registered, currently CRASHED. -/
def crashedMachine : StateMachineComponent :=
  { states := [RIDING, CARRYING, REMOUNTING, CRASHED]
    current := some CRASHED
    keepHistory := false
    maxHistorySize := 50
    history := []
    transitionTime := 0 }

/-- A machine mid-run: current state RIDING with 5 seconds accumulated
on the time-in-state counter and history keeping enabled. -/
def ridingAfter5s : StateMachineComponent :=
  { states := [RIDING, CARRYING, REMOUNTING, CRASHED]
    current := some RIDING
    keepHistory := true
    maxHistorySize := 50
    history := []
    transitionTime := 5 }

/-- C1: with a current state, `change_state(target)` without `force`
succeeds iff `target` is registered and `can_transition_to(target)`
holds; on failure nothing is mutated and no `exit`/`enter` runs; from
CRASHED, `change_state(RIDING)` fails leaving the state CRASHED while
`change_state(REMOUNTING)` succeeds. -/
theorem change_state_legality (m : StateMachineComponent) (c target : StateType)
    (now : ℚ) (hcur : m.current = some c) :
    ((changeState m target false now).1 = true ↔
      (target ∈ m.states ∧ canTransitionTo c target = true))
    ∧ ((changeState m target false now).1 = false →
        (changeState m target false now).2.1 = m
        ∧ (changeState m target false now).2.2 = [])
    ∧ (changeState crashedMachine RIDING false 0).1 = false
    ∧ (changeState crashedMachine RIDING false 0).2.1.current = some CRASHED
    ∧ (changeState crashedMachine REMOUNTING false 0).1 = true := by
  refine ⟨?_, ?_, by decide, by decide, by decide⟩
  · by_cases hreg : target ∈ m.states
    · by_cases htr : canTransitionTo c target = true
      · simp [changeState, hcur, hreg, htr]
      · simp [changeState, hcur, hreg, htr]
    · simp [changeState, hcur, hreg]
  · intro hfail
    by_cases hreg : target ∈ m.states
    · by_cases htr : canTransitionTo c target = true
      · simp [changeState, hcur, hreg, htr] at hfail
      · simp [changeState, hcur, hreg, htr]
    · simp [changeState, hcur, hreg]

/-- Witness for `change_state_legality` at the CRASHED machine with
target REMOUNTING. -/
theorem change_state_legality_witness :
    crashedMachine.current = some CRASHED
    ∧ (((changeState crashedMachine REMOUNTING false 0).1 = true ↔
        (REMOUNTING ∈ crashedMachine.states
          ∧ canTransitionTo CRASHED REMOUNTING = true))
      ∧ ((changeState crashedMachine REMOUNTING false 0).1 = false →
          (changeState crashedMachine REMOUNTING false 0).2.1 = crashedMachine
          ∧ (changeState crashedMachine REMOUNTING false 0).2.2 = [])
      ∧ (changeState crashedMachine RIDING false 0).1 = false
      ∧ (changeState crashedMachine RIDING false 0).2.1.current = some CRASHED
      ∧ (changeState crashedMachine REMOUNTING false 0).1 = true) :=
  ⟨rfl, change_state_legality crashedMachine CRASHED REMOUNTING 0 rfl⟩

/-- C2 (code bug): a successful `change_state` does call `exit` on the
old state, swap to the target, call `enter` on it, and append to the
history, but it never resets `_transition_time`: after transitioning
from RIDING (held for 5s) to CARRYING, `get_time_in_current_state`
still returns 5, not 0. -/
theorem change_state_no_time_reset :
    (changeState ridingAfter5s CARRYING false 7).1 = true
    ∧ (changeState ridingAfter5s CARRYING false 7).2.1.current = some CARRYING
    ∧ (changeState ridingAfter5s CARRYING false 7).2.2 =
        [SMEvent.exitState RIDING, SMEvent.enterState CARRYING]
    ∧ (changeState ridingAfter5s CARRYING false 7).2.1.history = [(CARRYING, 7)]
    ∧ getTimeInCurrentState (changeState ridingAfter5s CARRYING false 7).2.1 = 5
    ∧ (5 : ℚ) ≠ 0 := by
  decide

/-! ### Game configuration (src/config/game_config.py) -/

namespace GameConfig

def CYCLIST_MAX_SPEED : ℚ := 450
def STAMINA_MAX : ℚ := 100
def STAMINA_BASE_DRAIN_RATE : ℚ := 2
def STAMINA_RECOVERY_RATE : ℚ := 8
def STAMINA_VELOCITY_MULTIPLIER : ℚ := 0.015
def STAMINA_SLOPE_MULTIPLIER : ℚ := 2.5
def STAMINA_FATIGUE_RECOVERY_PENALTY : ℚ := 0.7
def STAMINA_OPTIMAL_THRESHOLD : ℚ := 70
def STAMINA_MODERATE_THRESHOLD : ℚ := 40
def STAMINA_CRITICAL_THRESHOLD : ℚ := 10
def PERFORMANCE_OPTIMAL_SPEED_MULT : ℚ := 1
def PERFORMANCE_MODERATE_SPEED_MULT : ℚ := 0.9
def PERFORMANCE_CRITICAL_SPEED_MULT : ℚ := 0.7
def PERFORMANCE_EXHAUSTED_SPEED_MULT : ℚ := 0.5
def BALANCE_MAX : ℚ := 100
def BALANCE_RECOVERY_RATE : ℚ := 25
def BALANCE_CRITICAL_THRESHOLD : ℚ := 20
def BALANCE_CRASH_THRESHOLD : ℚ := 5
def BALANCE_CAMBER_MULTIPLIER : ℚ := 1.5
def BALANCE_SPEED_MULTIPLIER : ℚ := 0.8
def BALANCE_LOW_STAMINA_MULTIPLIER : ℚ := 1.8
def BALANCE_TERRAIN_GRIP_FACTOR : ℚ := 2
def FATIGUE_ACCUMULATION_RATE : ℚ := 0.5
def FATIGUE_MAX : ℚ := 100
def FATIGUE_RECOVERY_IN_CARRYING : ℚ := 2

end GameConfig

/-! ### Terrain data (src/systems/terrain_data.py) -/

/-- The `TerrainType` enum. -/
inductive TerrainType where
  | ASPHALT
  | GRASS
  | SAND
  | MUD
  | GRAVEL
  | DIRT
  | CONCRETE
  deriving DecidableEq, Repr

/-- The frozen dataclass `TerrainData`.  Equality (`__eq__` of a frozen
dataclass) is field-wise, matching derived `DecidableEq`. -/
structure TerrainData where
  terrainType : TerrainType
  speedMultiplier : ℚ
  staminaDrainMultiplier : ℚ
  gripLevel : ℚ
  dragModifier : ℚ
  color : ℤ × ℤ × ℤ
  name : String
  slope : ℚ := 0
  camber : ℚ := 0
  deriving DecidableEq, Repr

/-- The range checks of `TerrainData.__post_init__`: construction
raises unless these hold, so every live `TerrainData` satisfies them. -/
def TerrainData.Valid (t : TerrainData) : Prop :=
  0 ≤ t.speedMultiplier ∧ t.speedMultiplier ≤ 2
  ∧ 0 ≤ t.gripLevel ∧ t.gripLevel ≤ 1
  ∧ 0 ≤ t.staminaDrainMultiplier

instance (t : TerrainData) : Decidable t.Valid := by
  unfold TerrainData.Valid
  infer_instance

/-- Every terrain datum carried by an optional value is valid. -/
def TerrainOk (o : Option TerrainData) : Prop :=
  ∀ t, o = some t → t.Valid

instance (o : Option TerrainData) : Decidable (TerrainOk o) :=
  match o with
  | none => .isTrue (by intro t h; cases h)
  | some t =>
      if h : t.Valid then .isTrue (by intro u hu; cases hu; exact h)
      else .isFalse (by intro hall; exact h (hall t rfl))

/-! ### Broken terrain singleton lookup
(src/components/balance_component.py lines 198-212,
src/components/stamina_component.py lines 202-216,
src/systems/terrain_manager.py) -/

/-- The names bound in the class body of `TerrainManager`
(src/systems/terrain_manager.py): Python resolves
`TerrainManager.get_instance` against these (then against `object`,
which also has no `get_instance`). -/
def terrainManagerClassAttrs : List String :=
  ["__init__", "_initialize_grid", "set_terrain_from_grid",
   "get_tile_at_grid", "get_terrain_at_position",
   "get_terrain_data_at_position", "_is_valid_grid_position",
   "get_world_width", "get_world_height", "render", "get_all_tiles",
   "clear", "__repr__"]

/-- Python attribute lookup on a class object: `AttributeError` when
the name is not bound. -/
def pyClassGetAttr (attrs : List String) (name : String) : Except PyExc Unit :=
  if name ∈ attrs then .ok () else .error .attributeError

/-- `_get_current_terrain_data` shared by BalanceComponent and
StaminaComponent: returns `none` when the transform reference is
`None`, otherwise calls `TerrainManager.get_instance()`.  The success
continuation of that lookup is unreachable (the attribute does not
exist, see `terrain_manager_lookup_raises`); no source body exists for
it, so it is rendered as `.ok none`. -/
def getCurrentTerrainData (transformAttached : Bool) :
    Except PyExc (Option TerrainData) :=
  if transformAttached = false then .ok none
  else
    match pyClassGetAttr terrainManagerClassAttrs "get_instance" with
    | .error e => .error e
    | .ok _ => .ok none

/-! ### Stamina component (src/components/stamina_component.py) -/

/-- The `PerformanceZone` enum (src/config/constants.py). -/
inductive PerformanceZone where
  | OPTIMAL
  | MODERATE
  | CRITICAL
  | EXHAUSTED
  deriving DecidableEq, Repr

/-- Fields of a `StaminaComponent`.  `transformAttached` and
`physicsAttached` record whether the sibling component references
resolved (both are mandatory: `init` raises otherwise).  The debug-only
`_last_imbalance_source` style strings are not modelled. -/
structure StaminaState where
  currentStamina : ℚ
  maxStamina : ℚ
  fatigueLevel : ℚ
  baseDrainRate : ℚ
  recoveryRate : ℚ
  currentZone : PerformanceZone
  isRecovering : Bool
  enabled : Bool
  transformAttached : Bool
  physicsAttached : Bool
  deriving DecidableEq, Repr

namespace StaminaComponent

/-- `get_percentage` (lines 258-265). -/
def getPercentage (s : StaminaState) : ℚ :=
  s.currentStamina / s.maxStamina * 100

/-- `drain` (lines 231-238). -/
def drain (s : StaminaState) (amount : ℚ) : StaminaState :=
  { s with currentStamina := max 0 (s.currentStamina - amount) }

/-- `set_recovering` (lines 240-247). -/
def setRecovering (s : StaminaState) (isRecovering : Bool) : StaminaState :=
  { s with isRecovering := isRecovering }

/-- `_calculate_slope_multiplier` (lines 180-200). -/
def calculateSlopeMultiplier (terrain : Option TerrainData) : ℚ :=
  match terrain with
  | none => 1
  | some t =>
    if t.slope = 0 then 1
    else if t.slope > 0 then
      1 + (|t.slope| / 45) * GameConfig.STAMINA_SLOPE_MULTIPLIER
    else
      max 0.5 (1 - (|t.slope| / 45) * 0.5)

/-- `_drain_stamina` (lines 105-145) with the terrain sample passed in
as the result of the (broken) singleton lookup. -/
def drainStamina (s : StaminaState) (speed : ℚ) (terrain : Option TerrainData)
    (dt : ℚ) : StaminaState :=
  if ¬ (s.physicsAttached ∧ s.transformAttached) then s
  else
    let velocityFactor := 1 + speed * GameConfig.STAMINA_VELOCITY_MULTIPLIER
    let terrainMultiplier :=
      match terrain with
      | some t => t.staminaDrainMultiplier
      | none => 1
    let slopeMultiplier := calculateSlopeMultiplier terrain
    let fatigueFactor := 1 + s.fatigueLevel / GameConfig.FATIGUE_MAX * 0.5
    let totalDrain := s.baseDrainRate * velocityFactor * terrainMultiplier
      * slopeMultiplier * fatigueFactor * dt
    drain s totalDrain

/-- `_recover` (lines 147-168). -/
def recover (s : StaminaState) (dt : ℚ) : StaminaState :=
  let fatiguePenalty := 1 - s.fatigueLevel / GameConfig.FATIGUE_MAX
    * (1 - GameConfig.STAMINA_FATIGUE_RECOVERY_PENALTY)
  let recoveryAmount := s.recoveryRate * fatiguePenalty * dt
  { s with
    currentStamina := min s.maxStamina (s.currentStamina + recoveryAmount)
    fatigueLevel :=
      max 0 (s.fatigueLevel - GameConfig.FATIGUE_RECOVERY_IN_CARRYING * dt) }

/-- `_accumulate_fatigue` (lines 170-178). -/
def accumulateFatigue (s : StaminaState) (dt : ℚ) : StaminaState :=
  { s with
    fatigueLevel :=
      min GameConfig.FATIGUE_MAX
        (s.fatigueLevel + GameConfig.FATIGUE_ACCUMULATION_RATE * dt) }

/-- `_update_performance_zone` (lines 218-229). -/
def updatePerformanceZone (s : StaminaState) : StaminaState :=
  { s with currentZone :=
      if getPercentage s ≥ GameConfig.STAMINA_OPTIMAL_THRESHOLD then .OPTIMAL
      else if getPercentage s ≥ GameConfig.STAMINA_MODERATE_THRESHOLD then .MODERATE
      else if getPercentage s ≥ GameConfig.STAMINA_CRITICAL_THRESHOLD then .CRITICAL
      else .EXHAUSTED }

/-- The tail of `update` after the drain-or-recover phase: zone
recomputation and conditional fatigue accumulation (lines 98-103). -/
def postPhase (s : StaminaState) (dt : ℚ) : StaminaState :=
  let s2 := updatePerformanceZone s
  if ¬ s2.isRecovering ∧ s2.currentStamina < s2.maxStamina then
    accumulateFatigue s2 dt
  else s2

/-- `update` (lines 82-103) with the terrain sample supplied as a
parameter; the raising lookup path is modelled by
`StaminaComponent.update` below. -/
def updateCore (s : StaminaState) (speed : ℚ) (terrain : Option TerrainData)
    (dt : ℚ) : StaminaState :=
  if s.enabled = false then s
  else if s.isRecovering then postPhase (recover s dt) dt
  else postPhase (drainStamina s speed terrain dt) dt

/-- `update` (lines 82-103) with the actual terrain lookup chain.  An
error carries the component state at the moment of the raise. -/
def update (s : StaminaState) (speed dt : ℚ) :
    Except (PyExc × StaminaState) StaminaState :=
  if s.enabled = false then .ok s
  else if s.isRecovering then .ok (postPhase (recover s dt) dt)
  else if s.physicsAttached ∧ s.transformAttached then
    match getCurrentTerrainData s.transformAttached with
    | .error e => .error (e, s)
    | .ok terrain => .ok (postPhase (drainStamina s speed terrain dt) dt)
  else .ok (postPhase s dt)

/-- `get_speed_multiplier` (lines 276-289). -/
def getSpeedMultiplier (s : StaminaState) : ℚ :=
  match s.currentZone with
  | .OPTIMAL => GameConfig.PERFORMANCE_OPTIMAL_SPEED_MULT
  | .MODERATE => GameConfig.PERFORMANCE_MODERATE_SPEED_MULT
  | .CRITICAL => GameConfig.PERFORMANCE_CRITICAL_SPEED_MULT
  | .EXHAUSTED => GameConfig.PERFORMANCE_EXHAUSTED_SPEED_MULT

end StaminaComponent

/-- Initial stamina component values (`__init__` plus a successful
`init`). -/
def staminaInit : StaminaState :=
  { currentStamina := GameConfig.STAMINA_MAX
    maxStamina := GameConfig.STAMINA_MAX
    fatigueLevel := 0
    baseDrainRate := GameConfig.STAMINA_BASE_DRAIN_RATE
    recoveryRate := GameConfig.STAMINA_RECOVERY_RATE
    currentZone := .OPTIMAL
    isRecovering := false
    enabled := true
    transformAttached := true
    physicsAttached := true }

/-! ### Balance component (src/components/balance_component.py) -/

/-- Fields of a `BalanceComponent`.  `staminaAttached` records whether
the optional sibling `StaminaComponent` resolved. -/
structure BalanceState where
  currentBalance : ℚ
  maxBalance : ℚ
  instability : ℚ
  recoveryRate : ℚ
  criticalThreshold : ℚ
  crashThreshold : ℚ
  previousRotation : ℚ
  enabled : Bool
  transformAttached : Bool
  physicsAttached : Bool
  staminaAttached : Bool
  deriving DecidableEq, Repr

namespace BalanceComponent

/-- Contribution 1 of `_calculate_instability` (lines 131-138):
terrain camber. -/
def camberPart (terrain : Option TerrainData) : ℚ :=
  match terrain with
  | some t =>
    if t.camber ≠ 0 then |t.camber| * GameConfig.BALANCE_CAMBER_MULTIPLIER
    else 0
  | none => 0

/-- Contribution 2 of `_calculate_instability` (lines 140-147): speed
while turning. -/
def turnPart (rotationChange speed : ℚ) : ℚ :=
  if rotationChange > 0.01 then
    rotationChange * (speed / GameConfig.CYCLIST_MAX_SPEED)
      * GameConfig.BALANCE_SPEED_MULTIPLIER * 100
  else 0

/-- Contribution 3 of `_calculate_instability` (lines 149-155):
reduced terrain grip. -/
def gripPart (terrain : Option TerrainData) : ℚ :=
  match terrain with
  | some t => (1 - t.gripLevel) * GameConfig.BALANCE_TERRAIN_GRIP_FACTOR
  | none => 0

/-- Contribution 4 of `_calculate_instability` (lines 157-165):
exhaustion below 30 percent stamina. -/
def exhaustionPart (staminaPct : Option ℚ) : ℚ :=
  match staminaPct with
  | some pct =>
    if pct < 30 then (30 - pct) / 30 * GameConfig.BALANCE_LOW_STAMINA_MULTIPLIER
    else 0
  | none => 0

/-- `_calculate_instability` (lines 119-171) with the terrain sample
and the sibling stamina percentage passed in.  The instability is the
sum of the four guarded contributions, recomputed fresh. -/
def calculateInstability (s : BalanceState) (rotation speed : ℚ)
    (staminaPct : Option ℚ) (terrain : Option TerrainData) : BalanceState :=
  if ¬ (s.physicsAttached ∧ s.transformAttached) then s
  else
    { s with
      instability :=
        camberPart terrain + turnPart |rotation - s.previousRotation| speed
          + gripPart terrain + exhaustionPart staminaPct
      previousRotation := rotation }

/-- The instability application step of `update` (lines 109-111). -/
def applyInstability (s : BalanceState) (dt : ℚ) : BalanceState :=
  if s.instability > 0 then
    { s with currentBalance := max 0 (s.currentBalance - s.instability * dt) }
  else s

/-- `_recover_balance` (lines 173-196) with the terrain sample passed
in. -/
def recoverBalance (s : BalanceState) (terrain : Option TerrainData)
    (dt : ℚ) : BalanceState :=
  let recoveryMultiplier : ℚ :=
    match terrain with
    | some t => t.gripLevel * (if |t.camber| < 2 then 1.5 else 1)
    | none => 1
  let recoveryAmount := s.recoveryRate * recoveryMultiplier * dt
  { s with currentBalance := min s.maxBalance (s.currentBalance + recoveryAmount) }

/-- The instability decay step of `update` (line 117). -/
def decayInstability (s : BalanceState) (dt : ℚ) : BalanceState :=
  { s with instability := max 0 (s.instability - 10 * dt) }

/-- `update` (lines 96-117) with the terrain sample supplied as a
parameter; the raising lookup path is modelled by
`BalanceComponent.update` below. -/
def updateCore (s : BalanceState) (rotation speed : ℚ) (staminaPct : Option ℚ)
    (terrain : Option TerrainData) (dt : ℚ) : BalanceState :=
  if s.enabled = false then s
  else
    decayInstability
      (recoverBalance
        (applyInstability (calculateInstability s rotation speed staminaPct terrain) dt)
        terrain dt)
      dt

/-- `update` (lines 96-117) with the actual terrain lookup chain (one
lookup inside `_calculate_instability`, a second inside
`_recover_balance`).  An error carries the component state at the
moment of the raise. -/
def update (s : BalanceState) (rotation speed : ℚ) (staminaPct : Option ℚ)
    (dt : ℚ) : Except (PyExc × BalanceState) BalanceState :=
  if s.enabled = false then .ok s
  else if s.physicsAttached ∧ s.transformAttached then
    match getCurrentTerrainData s.transformAttached with
    | .error e => .error (e, s)
    | .ok terrain =>
      let s2 := applyInstability (calculateInstability s rotation speed staminaPct terrain) dt
      match getCurrentTerrainData s.transformAttached with
      | .error e => .error (e, s2)
      | .ok terrain2 => .ok (decayInstability (recoverBalance s2 terrain2 dt) dt)
  else
    let s2 := applyInstability s dt
    match getCurrentTerrainData s.transformAttached with
    | .error e => .error (e, s2)
    | .ok terrain2 => .ok (decayInstability (recoverBalance s2 terrain2 dt) dt)

/-- `apply_imbalance` (lines 214-224). -/
def applyImbalance (s : BalanceState) (amount : ℚ) : BalanceState :=
  { s with
    currentBalance := max 0 (s.currentBalance - amount)
    instability := s.instability + amount * 0.5 }

end BalanceComponent

/-- Initial balance component values (`__init__` plus a successful
`init` with the transform still at rotation 0). -/
def balanceInit : BalanceState :=
  { currentBalance := GameConfig.BALANCE_MAX
    maxBalance := GameConfig.BALANCE_MAX
    instability := 0
    recoveryRate := GameConfig.BALANCE_RECOVERY_RATE
    criticalThreshold := GameConfig.BALANCE_CRITICAL_THRESHOLD
    crashThreshold := GameConfig.BALANCE_CRASH_THRESHOLD
    previousRotation := 0
    enabled := true
    transformAttached := true
    physicsAttached := true
    staminaAttached := true }

/-- C5: `TerrainManager` defines no `get_instance`, so an enabled
`BalanceComponent.update`, and an enabled non-recovering
`StaminaComponent.update`, with their sibling references attached,
raise `AttributeError` with `current_balance` / `current_stamina` (and
every other field) still unchanged. -/
theorem terrain_manager_lookup_raises :
    "get_instance" ∉ terrainManagerClassAttrs
    ∧ (∀ (s : BalanceState) (rotation speed : ℚ) (staminaPct : Option ℚ) (dt : ℚ),
        s.enabled = true → s.transformAttached = true → s.physicsAttached = true →
        BalanceComponent.update s rotation speed staminaPct dt
          = .error (.attributeError, s))
    ∧ (∀ (s : StaminaState) (speed dt : ℚ),
        s.enabled = true → s.isRecovering = false →
        s.transformAttached = true → s.physicsAttached = true →
        StaminaComponent.update s speed dt = .error (.attributeError, s)) := by
  have hm : "get_instance" ∉ terrainManagerClassAttrs := by decide
  refine ⟨hm, ?_, ?_⟩
  · intro s rotation speed staminaPct dt he ht hp
    simp [BalanceComponent.update, he, ht, hp, getCurrentTerrainData,
      pyClassGetAttr, hm]
  · intro s speed dt he hr ht hp
    simp [StaminaComponent.update, he, hr, ht, hp, getCurrentTerrainData,
      pyClassGetAttr, hm]

/-- Witness for `terrain_manager_lookup_raises` at the freshly
initialised components. -/
theorem terrain_manager_lookup_raises_witness :
    balanceInit.enabled = true ∧ balanceInit.transformAttached = true
    ∧ balanceInit.physicsAttached = true
    ∧ staminaInit.enabled = true ∧ staminaInit.isRecovering = false
    ∧ staminaInit.transformAttached = true ∧ staminaInit.physicsAttached = true
    ∧ BalanceComponent.update balanceInit 0 0 none 1
        = .error (.attributeError, balanceInit)
    ∧ StaminaComponent.update staminaInit 0 1
        = .error (.attributeError, staminaInit) :=
  ⟨rfl, rfl, rfl, rfl, rfl, rfl, rfl,
   terrain_manager_lookup_raises.2.1 balanceInit 0 0 none 1 rfl rfl rfl,
   terrain_manager_lookup_raises.2.2 staminaInit 0 1 rfl rfl rfl rfl⟩

/-- The zone classification exactly as the spec words it: a pure
function of the stamina percentage with thresholds 70/40/10, upper
bound inclusive. -/
def zoneOfPercentage (p : ℚ) : PerformanceZone :=
  if p ≥ 70 then .OPTIMAL
  else if p ≥ 40 then .MODERATE
  else if p ≥ 10 then .CRITICAL
  else .EXHAUSTED

/-- `_update_performance_zone` computes `zoneOfPercentage` of the
current percentage. -/
theorem updatePerformanceZone_eq (s : StaminaState) :
    (StaminaComponent.updatePerformanceZone s).currentZone
      = zoneOfPercentage (StaminaComponent.getPercentage s) := rfl

/-- After the post phase of a stamina update, the stored zone is the
pure classification of the stored percentage. -/
theorem postPhase_zone (s : StaminaState) (dt : ℚ) :
    (StaminaComponent.postPhase s dt).currentZone
      = zoneOfPercentage
          (StaminaComponent.getPercentage (StaminaComponent.postPhase s dt)) := by
  unfold StaminaComponent.postPhase
  dsimp only
  split_ifs with h
  · rfl
  · rfl

/-- C6: every enabled stamina update leaves the performance zone equal
to the pure 70/40/10 classification of the resulting stamina
percentage; at stamina 35 of 100 the recomputed zone is CRITICAL; and
`get_speed_multiplier` maps the zones to 1.0/0.9/0.7/0.5 (the
component exposes the factor, it does not write physics). -/
theorem performance_zone_table (s : StaminaState) (speed : ℚ)
    (terrain : Option TerrainData) (dt : ℚ) (he : s.enabled = true) :
    (StaminaComponent.updateCore s speed terrain dt).currentZone
      = zoneOfPercentage
          (StaminaComponent.getPercentage (StaminaComponent.updateCore s speed terrain dt))
    ∧ (StaminaComponent.updateCore { staminaInit with currentStamina := 35 } 0 none 0).currentZone
        = PerformanceZone.CRITICAL
    ∧ StaminaComponent.getSpeedMultiplier { staminaInit with currentZone := .OPTIMAL } = 1
    ∧ StaminaComponent.getSpeedMultiplier { staminaInit with currentZone := .MODERATE } = 0.9
    ∧ StaminaComponent.getSpeedMultiplier { staminaInit with currentZone := .CRITICAL } = 0.7
    ∧ StaminaComponent.getSpeedMultiplier { staminaInit with currentZone := .EXHAUSTED } = 0.5 := by
  refine ⟨?_,
    by norm_num [StaminaComponent.updateCore, StaminaComponent.postPhase,
      StaminaComponent.drainStamina, StaminaComponent.drain,
      StaminaComponent.updatePerformanceZone, StaminaComponent.accumulateFatigue,
      StaminaComponent.getPercentage, StaminaComponent.calculateSlopeMultiplier,
      staminaInit, GameConfig.STAMINA_MAX, GameConfig.STAMINA_BASE_DRAIN_RATE,
      GameConfig.STAMINA_RECOVERY_RATE, GameConfig.STAMINA_VELOCITY_MULTIPLIER,
      GameConfig.FATIGUE_MAX, GameConfig.FATIGUE_ACCUMULATION_RATE,
      GameConfig.STAMINA_OPTIMAL_THRESHOLD, GameConfig.STAMINA_MODERATE_THRESHOLD,
      GameConfig.STAMINA_CRITICAL_THRESHOLD],
    by norm_num [StaminaComponent.getSpeedMultiplier, GameConfig.PERFORMANCE_OPTIMAL_SPEED_MULT],
    by norm_num [StaminaComponent.getSpeedMultiplier, GameConfig.PERFORMANCE_MODERATE_SPEED_MULT],
    by norm_num [StaminaComponent.getSpeedMultiplier, GameConfig.PERFORMANCE_CRITICAL_SPEED_MULT],
    by norm_num [StaminaComponent.getSpeedMultiplier, GameConfig.PERFORMANCE_EXHAUSTED_SPEED_MULT]⟩
  unfold StaminaComponent.updateCore
  rw [he]
  simp only [Bool.true_eq_false, if_false]
  split_ifs with hr
  · exact postPhase_zone _ _
  · exact postPhase_zone _ _

/-- The balance and stamina components of one cyclist, as wired by
the extended entity (`src/entities/cyclist_with_states.py`): the
balance component reads the sibling stamina percentage. -/
structure RiderState where
  balance : BalanceState
  stamina : StaminaState
  deriving Repr

/-- Both components at their initial values. -/
def riderInit : RiderState :=
  { balance := balanceInit, stamina := staminaInit }

/-- The sibling stamina percentage as seen by the balance component. -/
def staminaPctOf (r : RiderState) : Option ℚ :=
  if r.balance.staminaAttached then
    some (StaminaComponent.getPercentage r.stamina)
  else none

/-- One public call on the balance/stamina pair.  Update calls carry
the per-frame inputs read from the siblings: the transform rotation,
the physics speed (`get_speed`, a vector length) and the sampled
terrain. -/
inductive RiderCall where
  | updateBalance (rotation speed : ℚ) (terrain : Option TerrainData) (dt : ℚ)
  | updateStamina (speed : ℚ) (terrain : Option TerrainData) (dt : ℚ)
  | applyImbalance (amount : ℚ)
  | drain (amount : ℚ)
  | setRecovering (b : Bool)

/-- Effect of one call on the pair of components. -/
def riderStep (r : RiderState) : RiderCall → RiderState
  | .updateBalance rotation speed terrain dt =>
      { r with balance :=
          BalanceComponent.updateCore r.balance rotation speed (staminaPctOf r) terrain dt }
  | .updateStamina speed terrain dt =>
      { r with stamina := StaminaComponent.updateCore r.stamina speed terrain dt }
  | .applyImbalance amount =>
      { r with balance := BalanceComponent.applyImbalance r.balance amount }
  | .drain amount =>
      { r with stamina := StaminaComponent.drain r.stamina amount }
  | .setRecovering b =>
      { r with stamina := StaminaComponent.setRecovering r.stamina b }

/-- A sequence of calls, applied in order. -/
def applyCalls (r : RiderState) (calls : List RiderCall) : RiderState :=
  calls.foldl riderStep r

/-- Side conditions under which a call is well-formed: nonnegative
`dt`, nonnegative speed (it is a vector length), terrain data that
passed `TerrainData.__post_init__`, and nonnegative imbalance and
drain amounts. -/
def RiderCall.Wf : RiderCall → Prop
  | .updateBalance _ speed terrain dt => 0 ≤ speed ∧ 0 ≤ dt ∧ TerrainOk terrain
  | .updateStamina speed terrain dt => 0 ≤ speed ∧ 0 ≤ dt ∧ TerrainOk terrain
  | .applyImbalance amount => 0 ≤ amount
  | .drain amount => 0 ≤ amount
  | .setRecovering _ => True

/-- Inductive invariant on a balance component: the claimed balance
range plus the auxiliary facts it needs (nonnegative instability,
maximum and recovery rate; the latter two are never written after
construction). -/
def BalInv (s : BalanceState) : Prop :=
  0 ≤ s.currentBalance
  ∧ s.currentBalance ≤ s.maxBalance
  ∧ 0 ≤ s.maxBalance
  ∧ 0 ≤ s.instability
  ∧ 0 ≤ s.recoveryRate

/-- Inductive invariant on a stamina component: the claimed stamina
range plus the auxiliary facts it needs (fatigue in range,
nonnegative rates and maximum; those fields are never written after
construction). -/
def StamInv (s : StaminaState) : Prop :=
  0 ≤ s.currentStamina
  ∧ s.currentStamina ≤ s.maxStamina
  ∧ 0 ≤ s.maxStamina
  ∧ 0 ≤ s.fatigueLevel
  ∧ s.fatigueLevel ≤ GameConfig.FATIGUE_MAX
  ∧ 0 ≤ s.baseDrainRate
  ∧ 0 ≤ s.recoveryRate

/-- The inductive invariant carried through call sequences. -/
def RiderInv (r : RiderState) : Prop :=
  BalInv r.balance ∧ StamInv r.stamina

/-- A lower clamp keeps a value that started inside `[0, M]` inside
`[0, M]` when a nonnegative amount is subtracted. -/
theorem clamp_sub_bounds (x M a : ℚ) (h0 : 0 ≤ x) (hM : x ≤ M) (ha : 0 ≤ a) :
    0 ≤ max 0 (x - a) ∧ max 0 (x - a) ≤ M :=
  ⟨le_max_left _ _, max_le (h0.trans hM) (by linarith)⟩

/-- An upper clamp keeps a value that started inside `[0, M]` inside
`[0, M]` when a nonnegative amount is added. -/
theorem clamp_add_bounds (x M a : ℚ) (h0 : 0 ≤ x) (hM0 : 0 ≤ M) (ha : 0 ≤ a) :
    0 ≤ min M (x + a) ∧ min M (x + a) ≤ M :=
  ⟨le_min hM0 (by linarith), min_le_left _ _⟩

/-- The camber contribution is never negative. -/
theorem camberPart_nonneg (terrain : Option TerrainData) :
    0 ≤ BalanceComponent.camberPart terrain := by
  unfold BalanceComponent.camberPart
  cases terrain with
  | none => norm_num
  | some t =>
    dsimp only
    split_ifs
    · simp only [GameConfig.BALANCE_CAMBER_MULTIPLIER]
      positivity
    · norm_num

/-- The turning contribution is never negative. -/
theorem turnPart_nonneg (rotationChange speed : ℚ) (hrc : 0 ≤ rotationChange)
    (hspeed : 0 ≤ speed) : 0 ≤ BalanceComponent.turnPart rotationChange speed := by
  unfold BalanceComponent.turnPart
  split_ifs
  · exact mul_nonneg
      (mul_nonneg
        (mul_nonneg hrc
          (div_nonneg hspeed (by norm_num [GameConfig.CYCLIST_MAX_SPEED])))
        (by norm_num [GameConfig.BALANCE_SPEED_MULTIPLIER]))
      (by norm_num)
  · exact le_refl 0

/-- The grip contribution is never negative on validated terrain. -/
theorem gripPart_nonneg (terrain : Option TerrainData) (ht : TerrainOk terrain) :
    0 ≤ BalanceComponent.gripPart terrain := by
  unfold BalanceComponent.gripPart
  cases terrain with
  | none => norm_num
  | some t =>
    have hv := ht t rfl
    exact mul_nonneg (by linarith [hv.2.2.2.1])
      (by norm_num [GameConfig.BALANCE_TERRAIN_GRIP_FACTOR])

/-- The exhaustion contribution is never negative. -/
theorem exhaustionPart_nonneg (staminaPct : Option ℚ) :
    0 ≤ BalanceComponent.exhaustionPart staminaPct := by
  unfold BalanceComponent.exhaustionPart
  cases staminaPct with
  | none => norm_num
  | some pct =>
    dsimp only
    split_ifs with h
    · exact mul_nonneg (div_nonneg (by linarith) (by norm_num))
        (by norm_num [GameConfig.BALANCE_LOW_STAMINA_MULTIPLIER])
    · norm_num

/-- `_calculate_instability` preserves the balance invariant. -/
theorem calculateInstability_inv (s : BalanceState) (rotation speed : ℚ)
    (staminaPct : Option ℚ) (terrain : Option TerrainData)
    (hs : BalInv s) (hspeed : 0 ≤ speed) (ht : TerrainOk terrain) :
    BalInv (BalanceComponent.calculateInstability s rotation speed staminaPct terrain) := by
  unfold BalanceComponent.calculateInstability
  split_ifs with h
  · obtain ⟨h1, h2, h3, _, h5⟩ := hs
    refine ⟨h1, h2, h3, ?_, h5⟩
    exact add_nonneg
      (add_nonneg
        (add_nonneg (camberPart_nonneg terrain)
          (turnPart_nonneg _ speed (abs_nonneg _) hspeed))
        (gripPart_nonneg terrain ht))
      (exhaustionPart_nonneg staminaPct)
  · exact hs

/-- The instability application step preserves the balance invariant. -/
theorem applyInstability_inv (s : BalanceState) (dt : ℚ)
    (hs : BalInv s) (hdt : 0 ≤ dt) :
    BalInv (BalanceComponent.applyInstability s dt) := by
  obtain ⟨h1, h2, h3, h4, h5⟩ := hs
  unfold BalanceComponent.applyInstability
  split_ifs with h
  · obtain ⟨g1, g2⟩ := clamp_sub_bounds s.currentBalance s.maxBalance
      (s.instability * dt) h1 h2 (mul_nonneg h4 hdt)
    exact ⟨g1, g2, h3, h4, h5⟩
  · exact ⟨h1, h2, h3, h4, h5⟩

/-- `_recover_balance` preserves the balance invariant. -/
theorem recoverBalance_inv (s : BalanceState) (terrain : Option TerrainData)
    (dt : ℚ) (hs : BalInv s) (hdt : 0 ≤ dt) (ht : TerrainOk terrain) :
    BalInv (BalanceComponent.recoverBalance s terrain dt) := by
  obtain ⟨h1, h2, h3, h4, h5⟩ := hs
  have hmult : 0 ≤ (match terrain with
      | some t => t.gripLevel * (if |t.camber| < 2 then (1.5 : ℚ) else 1)
      | none => (1 : ℚ)) := by
    cases terrain with
    | none => norm_num
    | some t =>
      have hv := ht t rfl
      exact mul_nonneg hv.2.2.1 (by split_ifs <;> norm_num)
  unfold BalanceComponent.recoverBalance
  dsimp only
  exact ⟨le_min h3 (add_nonneg h1 (mul_nonneg (mul_nonneg h5 hmult) hdt)),
    min_le_left _ _, h3, h4, h5⟩

/-- The instability decay step preserves the balance invariant. -/
theorem decayInstability_inv (s : BalanceState) (dt : ℚ) (hs : BalInv s) :
    BalInv (BalanceComponent.decayInstability s dt) := by
  obtain ⟨h1, h2, h3, _, h5⟩ := hs
  exact ⟨h1, h2, h3, le_max_left _ _, h5⟩

/-- A full balance update preserves the balance invariant. -/
theorem balanceUpdateCore_inv (s : BalanceState) (rotation speed : ℚ)
    (staminaPct : Option ℚ) (terrain : Option TerrainData) (dt : ℚ)
    (hs : BalInv s) (hspeed : 0 ≤ speed) (hdt : 0 ≤ dt) (ht : TerrainOk terrain) :
    BalInv (BalanceComponent.updateCore s rotation speed staminaPct terrain dt) := by
  unfold BalanceComponent.updateCore
  split_ifs with h
  · exact hs
  · exact decayInstability_inv _ _
      (recoverBalance_inv _ _ _
        (applyInstability_inv _ _
          (calculateInstability_inv s rotation speed staminaPct terrain hs hspeed ht) hdt)
        hdt ht)

/-- `apply_imbalance` with a nonnegative amount preserves the balance
invariant. -/
theorem applyImbalance_inv (s : BalanceState) (amount : ℚ)
    (hs : BalInv s) (ha : 0 ≤ amount) :
    BalInv (BalanceComponent.applyImbalance s amount) := by
  obtain ⟨h1, h2, h3, h4, h5⟩ := hs
  obtain ⟨g1, g2⟩ := clamp_sub_bounds s.currentBalance s.maxBalance amount h1 h2 ha
  exact ⟨g1, g2, h3, add_nonneg h4 (mul_nonneg ha (by norm_num)), h5⟩

/-- `drain` with a nonnegative amount preserves the stamina invariant. -/
theorem drain_inv (s : StaminaState) (amount : ℚ)
    (hs : StamInv s) (ha : 0 ≤ amount) :
    StamInv (StaminaComponent.drain s amount) := by
  obtain ⟨h1, h2, h3, h4, h5, h6, h7⟩ := hs
  obtain ⟨g1, g2⟩ := clamp_sub_bounds s.currentStamina s.maxStamina amount h1 h2 ha
  exact ⟨g1, g2, h3, h4, h5, h6, h7⟩

/-- The slope multiplier is never negative. -/
theorem calculateSlopeMultiplier_nonneg (terrain : Option TerrainData) :
    0 ≤ StaminaComponent.calculateSlopeMultiplier terrain := by
  unfold StaminaComponent.calculateSlopeMultiplier
  cases terrain with
  | none => norm_num
  | some t =>
    dsimp only
    split_ifs
    · norm_num
    · have := abs_nonneg t.slope
      simp only [GameConfig.STAMINA_SLOPE_MULTIPLIER]
      positivity
    · exact le_trans (by norm_num) (le_max_left _ _)

/-- `_drain_stamina` preserves the stamina invariant. -/
theorem drainStamina_inv (s : StaminaState) (speed : ℚ)
    (terrain : Option TerrainData) (dt : ℚ)
    (hs : StamInv s) (hspeed : 0 ≤ speed) (hdt : 0 ≤ dt) (ht : TerrainOk terrain) :
    StamInv (StaminaComponent.drainStamina s speed terrain dt) := by
  unfold StaminaComponent.drainStamina
  split_ifs with h
  · dsimp only
    refine drain_inv s _ hs ?_
    have hvf : (0:ℚ) ≤ 1 + speed * GameConfig.STAMINA_VELOCITY_MULTIPLIER := by
      have := mul_nonneg hspeed
        (by norm_num [GameConfig.STAMINA_VELOCITY_MULTIPLIER] :
          (0:ℚ) ≤ GameConfig.STAMINA_VELOCITY_MULTIPLIER)
      linarith
    have htm : 0 ≤ (match terrain with
        | some t => t.staminaDrainMultiplier
        | none => (1:ℚ)) := by
      cases terrain with
      | none => norm_num
      | some t => exact (ht t rfl).2.2.2.2
    have hff : (0:ℚ) ≤ 1 + s.fatigueLevel / GameConfig.FATIGUE_MAX * 0.5 := by
      have := mul_nonneg
        (div_nonneg hs.2.2.2.1
          (by norm_num [GameConfig.FATIGUE_MAX] : (0:ℚ) ≤ GameConfig.FATIGUE_MAX))
        (by norm_num : (0:ℚ) ≤ (0.5:ℚ))
      linarith
    exact mul_nonneg
      (mul_nonneg
        (mul_nonneg
          (mul_nonneg (mul_nonneg hs.2.2.2.2.2.1 hvf) htm)
          (calculateSlopeMultiplier_nonneg terrain))
        hff)
      hdt
  · exact hs

/-- `_recover` preserves the stamina invariant. -/
theorem recover_inv (s : StaminaState) (dt : ℚ)
    (hs : StamInv s) (hdt : 0 ≤ dt) :
    StamInv (StaminaComponent.recover s dt) := by
  obtain ⟨h1, h2, h3, h4, h5, h6, h7⟩ := hs
  have hfm : s.fatigueLevel ≤ 100 := by
    simpa [GameConfig.FATIGUE_MAX] using h5
  have hpen : (0:ℚ) ≤ 1 - s.fatigueLevel / GameConfig.FATIGUE_MAX
      * (1 - GameConfig.STAMINA_FATIGUE_RECOVERY_PENALTY) := by
    simp only [GameConfig.FATIGUE_MAX, GameConfig.STAMINA_FATIGUE_RECOVERY_PENALTY]
    have hq : s.fatigueLevel / (100:ℚ) ≤ 1 := by
      rw [div_le_one (by norm_num : (0:ℚ) < 100)]
      exact hfm
    have hq0 : (0:ℚ) ≤ s.fatigueLevel / 100 := div_nonneg h4 (by norm_num)
    nlinarith
  unfold StaminaComponent.recover
  dsimp only
  obtain ⟨g1, g2⟩ := clamp_add_bounds s.currentStamina s.maxStamina _ h1 h3
    (mul_nonneg (mul_nonneg h7 hpen) hdt)
  refine ⟨g1, g2, h3, le_max_left _ _, ?_, h6, h7⟩
  refine max_le (by norm_num [GameConfig.FATIGUE_MAX]) ?_
  have : (0:ℚ) ≤ GameConfig.FATIGUE_RECOVERY_IN_CARRYING * dt :=
    mul_nonneg (by norm_num [GameConfig.FATIGUE_RECOVERY_IN_CARRYING]) hdt
  linarith

/-- `_accumulate_fatigue` preserves the stamina invariant. -/
theorem accumulateFatigue_inv (s : StaminaState) (dt : ℚ)
    (hs : StamInv s) (hdt : 0 ≤ dt) :
    StamInv (StaminaComponent.accumulateFatigue s dt) := by
  obtain ⟨h1, h2, h3, h4, h5, h6, h7⟩ := hs
  refine ⟨h1, h2, h3, ?_, min_le_left _ _, h6, h7⟩
  refine le_min (by norm_num [GameConfig.FATIGUE_MAX]) ?_
  have : (0:ℚ) ≤ GameConfig.FATIGUE_ACCUMULATION_RATE * dt :=
    mul_nonneg (by norm_num [GameConfig.FATIGUE_ACCUMULATION_RATE]) hdt
  linarith

/-- The zone/fatigue tail of a stamina update preserves the stamina
invariant. -/
theorem postPhase_inv (s : StaminaState) (dt : ℚ)
    (hs : StamInv s) (hdt : 0 ≤ dt) :
    StamInv (StaminaComponent.postPhase s dt) := by
  unfold StaminaComponent.postPhase
  dsimp only
  split_ifs with h
  · exact accumulateFatigue_inv _ dt hs hdt
  · exact hs

/-- A full stamina update preserves the stamina invariant. -/
theorem staminaUpdateCore_inv (s : StaminaState) (speed : ℚ)
    (terrain : Option TerrainData) (dt : ℚ)
    (hs : StamInv s) (hspeed : 0 ≤ speed) (hdt : 0 ≤ dt) (ht : TerrainOk terrain) :
    StamInv (StaminaComponent.updateCore s speed terrain dt) := by
  unfold StaminaComponent.updateCore
  split_ifs with h1 h2
  · exact hs
  · exact postPhase_inv _ dt (recover_inv s dt hs hdt) hdt
  · exact postPhase_inv _ dt (drainStamina_inv s speed terrain dt hs hspeed hdt ht) hdt

/-- One well-formed call preserves the rider invariant. -/
theorem riderStep_inv (r : RiderState) (c : RiderCall)
    (hr : RiderInv r) (hc : c.Wf) : RiderInv (riderStep r c) := by
  cases c with
  | updateBalance rotation speed terrain dt =>
      exact ⟨balanceUpdateCore_inv r.balance rotation speed (staminaPctOf r) terrain dt
        hr.1 hc.1 hc.2.1 hc.2.2, hr.2⟩
  | updateStamina speed terrain dt =>
      exact ⟨hr.1, staminaUpdateCore_inv r.stamina speed terrain dt
        hr.2 hc.1 hc.2.1 hc.2.2⟩
  | applyImbalance amount =>
      exact ⟨applyImbalance_inv r.balance amount hr.1 hc, hr.2⟩
  | drain amount =>
      exact ⟨hr.1, drain_inv r.stamina amount hr.2 hc⟩
  | setRecovering b =>
      exact ⟨hr.1, hr.2⟩

/-- Any sequence of well-formed calls preserves the rider invariant. -/
theorem applyCalls_inv (r : RiderState) (calls : List RiderCall)
    (hr : RiderInv r) (h : ∀ c ∈ calls, c.Wf) :
    RiderInv (applyCalls r calls) := by
  induction calls generalizing r with
  | nil => exact hr
  | cons c cs ih =>
      exact ih (riderStep r c)
        (riderStep_inv r c hr (h c (List.mem_cons_self _ _)))
        (fun x hx => h x (List.mem_cons_of_mem _ hx))

/-- The initial values satisfy the rider invariant. -/
theorem riderInit_inv : RiderInv riderInit := by
  refine ⟨⟨?_, ?_, ?_, ?_, ?_⟩, ⟨?_, ?_, ?_, ?_, ?_, ?_, ?_⟩⟩ <;>
    norm_num [riderInit, balanceInit, staminaInit, GameConfig.BALANCE_MAX,
      GameConfig.BALANCE_RECOVERY_RATE, GameConfig.STAMINA_MAX,
      GameConfig.STAMINA_BASE_DRAIN_RATE, GameConfig.STAMINA_RECOVERY_RATE,
      GameConfig.FATIGUE_MAX]

/-- C4 as stated is false: `drain` only clamps from below
(`max(0.0, current - amount)`), so a single `drain(-50)` call from the
initial values pushes `current_stamina` to 150, above
`max_stamina = 100`. -/
theorem balance_stamina_invariant_cex :
    (applyCalls riderInit [RiderCall.drain (-50)]).stamina.currentStamina = 150
    ∧ (applyCalls riderInit [RiderCall.drain (-50)]).stamina.maxStamina = 100
    ∧ ¬ ((applyCalls riderInit [RiderCall.drain (-50)]).stamina.currentStamina
          ≤ (applyCalls riderInit [RiderCall.drain (-50)]).stamina.maxStamina) := by
  norm_num [applyCalls, riderStep, StaminaComponent.drain, riderInit,
    staminaInit, GameConfig.STAMINA_MAX, max_def]

/-- C4 (amended): starting from the initial values, after any sequence
of balance/stamina `update` calls with `dt ≥ 0` (with nonnegative
speeds and validated terrain samples) interleaved with `apply_imbalance`
and `drain` calls with nonnegative amounts and arbitrary
`set_recovering` calls, `0 ≤ current_balance ≤ max_balance` and
`0 ≤ current_stamina ≤ max_stamina` hold. -/
theorem balance_stamina_invariant (calls : List RiderCall)
    (h : ∀ c ∈ calls, c.Wf) :
    0 ≤ (applyCalls riderInit calls).balance.currentBalance
    ∧ (applyCalls riderInit calls).balance.currentBalance
        ≤ (applyCalls riderInit calls).balance.maxBalance
    ∧ 0 ≤ (applyCalls riderInit calls).stamina.currentStamina
    ∧ (applyCalls riderInit calls).stamina.currentStamina
        ≤ (applyCalls riderInit calls).stamina.maxStamina := by
  have hinv := applyCalls_inv riderInit calls riderInit_inv h
  exact ⟨hinv.1.1, hinv.1.2.1, hinv.2.1, hinv.2.2.1⟩

/-- Witness for `balance_stamina_invariant` on a concrete two-call
sequence. -/
theorem balance_stamina_invariant_witness :
    (∀ c ∈ [RiderCall.drain 10, RiderCall.updateStamina 5 none (1/60)], RiderCall.Wf c)
    ∧ (0 ≤ (applyCalls riderInit [RiderCall.drain 10, RiderCall.updateStamina 5 none (1/60)]).balance.currentBalance
      ∧ (applyCalls riderInit [RiderCall.drain 10, RiderCall.updateStamina 5 none (1/60)]).balance.currentBalance
          ≤ (applyCalls riderInit [RiderCall.drain 10, RiderCall.updateStamina 5 none (1/60)]).balance.maxBalance
      ∧ 0 ≤ (applyCalls riderInit [RiderCall.drain 10, RiderCall.updateStamina 5 none (1/60)]).stamina.currentStamina
      ∧ (applyCalls riderInit [RiderCall.drain 10, RiderCall.updateStamina 5 none (1/60)]).stamina.currentStamina
          ≤ (applyCalls riderInit [RiderCall.drain 10, RiderCall.updateStamina 5 none (1/60)]).stamina.maxStamina) := by
  have hwf : ∀ c ∈ [RiderCall.drain 10, RiderCall.updateStamina 5 none (1/60)], RiderCall.Wf c := by
    intro c hc
    simp only [List.mem_cons, List.not_mem_nil, or_false] at hc
    rcases hc with h | h
    · subst h
      show (0:ℚ) ≤ 10
      norm_num
    · subst h
      refine ⟨by norm_num, by norm_num, ?_⟩
      intro t htc
      cases htc
  exact ⟨hwf, balance_stamina_invariant _ hwf⟩

/-! ### Terrain factory (src/patterns/factories/terrain_factory.py) -/

namespace TerrainFactory

/-- `TerrainFactory.create`: dispatches to the seven `_create_*`
builders (the registry cache always returns the same value, so the
cache is observationally the identity on these values). -/
def create : TerrainType → TerrainData
  | .ASPHALT =>
    { terrainType := .ASPHALT, speedMultiplier := 1, staminaDrainMultiplier := 0.8,
      gripLevel := 0.9, dragModifier := 0, color := (80, 80, 80), name := "Asphalte" }
  | .GRASS =>
    { terrainType := .GRASS, speedMultiplier := 0.7, staminaDrainMultiplier := 1.2,
      gripLevel := 0.7, dragModifier := 0.015, color := (34, 139, 34), name := "Herbe" }
  | .SAND =>
    { terrainType := .SAND, speedMultiplier := 0.5, staminaDrainMultiplier := 1.8,
      gripLevel := 0.4, dragModifier := 0.03, color := (194, 178, 128), name := "Sable" }
  | .MUD =>
    { terrainType := .MUD, speedMultiplier := 0.4, staminaDrainMultiplier := 2,
      gripLevel := 0.3, dragModifier := 0.04, color := (101, 67, 33), name := "Boue" }
  | .GRAVEL =>
    { terrainType := .GRAVEL, speedMultiplier := 0.75, staminaDrainMultiplier := 1.1,
      gripLevel := 0.6, dragModifier := 0.01, color := (150, 150, 120), name := "Gravier" }
  | .DIRT =>
    { terrainType := .DIRT, speedMultiplier := 0.8, staminaDrainMultiplier := 0.9,
      gripLevel := 0.75, dragModifier := 0.005, color := (139, 90, 43), name := "Terre battue" }
  | .CONCRETE =>
    { terrainType := .CONCRETE, speedMultiplier := 1.1, staminaDrainMultiplier := 0.7,
      gripLevel := 0.95, dragModifier := -0.005, color := (120, 120, 120), name := "Beton" }

end TerrainFactory

/-! ### Terrain physics coupling
(src/components/terrain_physics_component.py) -/

/-- The two physics fields written by the coupling component. -/
structure PhysFields where
  maxSpeed : ℚ
  drag : ℚ
  deriving DecidableEq, Repr

/-- Fields of a `TerrainPhysicsComponent`. -/
structure TerrainPhysicsState where
  baseMaxSpeed : ℚ
  baseDrag : ℚ
  currentTerrain : Option TerrainData
  currentTerrainType : TerrainType
  deriving DecidableEq, Repr

/-- A freshly constructed coupling component: no cached terrain yet,
type defaulted to GRASS (`__init__`, lines 24-52). -/
def terrainPhysicsInit (baseMaxSpeed baseDrag : ℚ) : TerrainPhysicsState :=
  { baseMaxSpeed := baseMaxSpeed
    baseDrag := baseDrag
    currentTerrain := none
    currentTerrainType := .GRASS }

namespace TerrainPhysicsComponent

/-- `_apply_terrain_effects` (lines 91-111): effective max speed and
drag clamped to `[0, 1]`. -/
def applyTerrainEffects (c : TerrainPhysicsState) (t : TerrainData) : PhysFields :=
  { maxSpeed := c.baseMaxSpeed * t.speedMultiplier
    drag := max 0 (min 1 (c.baseDrag - t.dragModifier)) }

/-- `update` (lines 71-89) with the terrain sampled at the transform's
position passed in: effects are applied only when the sample exists
and differs (dataclass equality) from the cached terrain. -/
def update (c : TerrainPhysicsState) (phys : PhysFields)
    (sampled : Option TerrainData) : TerrainPhysicsState × PhysFields :=
  match sampled with
  | some t =>
    if some t ≠ c.currentTerrain then
      ({ c with currentTerrain := some t, currentTerrainType := t.terrainType },
       applyTerrainEffects c t)
    else (c, phys)
  | none => (c, phys)

end TerrainPhysicsComponent

/-- C7: when the sampled tile differs from the cached terrain, one
coupling update sets `physics.max_speed = base_max_speed *
speed_multiplier` and `physics.drag = clamp(base_drag -
drag_modifier, 0, 1)`; with base 450 and multiplier 0.5 (sand) the
very first update yields exactly 225; when the sample equals the
cache, neither physics field is written. -/
theorem terrain_coupling_update (c : TerrainPhysicsState) (phys phys0 : PhysFields)
    (t : TerrainData) (h : some t ≠ c.currentTerrain) :
    (TerrainPhysicsComponent.update c phys (some t)).2.maxSpeed
        = c.baseMaxSpeed * t.speedMultiplier
    ∧ (TerrainPhysicsComponent.update c phys (some t)).2.drag
        = max 0 (min 1 (c.baseDrag - t.dragModifier))
    ∧ (∀ (c2 : TerrainPhysicsState) (p2 : PhysFields),
        TerrainPhysicsComponent.update c2 p2 c2.currentTerrain = (c2, p2))
    ∧ (TerrainPhysicsComponent.update (terrainPhysicsInit 450 0.985) phys0
        (some (TerrainFactory.create .SAND))).2.maxSpeed = 225 := by
  refine ⟨?_, ?_, ?_, ?_⟩
  · simp [TerrainPhysicsComponent.update, h, TerrainPhysicsComponent.applyTerrainEffects]
  · simp [TerrainPhysicsComponent.update, h, TerrainPhysicsComponent.applyTerrainEffects]
  · intro c2 p2
    cases hc : c2.currentTerrain with
    | none => simp [TerrainPhysicsComponent.update]
    | some u => simp [TerrainPhysicsComponent.update, hc]
  · have hne : some (TerrainFactory.create .SAND)
        ≠ (terrainPhysicsInit 450 0.985).currentTerrain := by
      simp [terrainPhysicsInit]
    simp only [TerrainPhysicsComponent.update, hne, if_true, ne_eq,
      not_false_iff, if_pos]
    norm_num [TerrainPhysicsComponent.applyTerrainEffects,
      terrainPhysicsInit, TerrainFactory.create]

/-- Witness for `terrain_coupling_update` at a fresh component rolling
onto sand. -/
theorem terrain_coupling_update_witness :
    some (TerrainFactory.create .SAND) ≠ (terrainPhysicsInit 450 0.985).currentTerrain
    ∧ ((TerrainPhysicsComponent.update (terrainPhysicsInit 450 0.985)
          { maxSpeed := 450, drag := 0.985 }
          (some (TerrainFactory.create .SAND))).2.maxSpeed
        = (terrainPhysicsInit 450 0.985).baseMaxSpeed
            * (TerrainFactory.create .SAND).speedMultiplier
      ∧ (TerrainPhysicsComponent.update (terrainPhysicsInit 450 0.985)
            { maxSpeed := 450, drag := 0.985 }
            (some (TerrainFactory.create .SAND))).2.drag
          = max 0 (min 1 ((terrainPhysicsInit 450 0.985).baseDrag
              - (TerrainFactory.create .SAND).dragModifier))
      ∧ (∀ (c2 : TerrainPhysicsState) (p2 : PhysFields),
          TerrainPhysicsComponent.update c2 p2 c2.currentTerrain = (c2, p2))
      ∧ (TerrainPhysicsComponent.update (terrainPhysicsInit 450 0.985)
            { maxSpeed := 450, drag := 0.985 }
            (some (TerrainFactory.create .SAND))).2.maxSpeed = 225) := by
  have h : some (TerrainFactory.create .SAND)
      ≠ (terrainPhysicsInit 450 0.985).currentTerrain := by
    simp [terrainPhysicsInit]
  exact ⟨h, terrain_coupling_update (terrainPhysicsInit 450 0.985)
    { maxSpeed := 450, drag := 0.985 } { maxSpeed := 450, drag := 0.985 }
    (TerrainFactory.create .SAND) h⟩

/-! ### Terrain grid and map loader (src/systems/terrain_tile.py,
src/systems/terrain_manager.py, src/utils/terrain_map_loader.py) -/

/-- `TerrainTile` (the pygame rect and render surface are
presentation-only and not modelled). -/
structure TerrainTile where
  terrainData : TerrainData
  gridX : ℕ
  gridY : ℕ
  tileSize : ℕ
  deriving DecidableEq, Repr

/-- Fields of a `TerrainManager`. -/
structure TerrainManager where
  width : ℕ
  height : ℕ
  tileSize : ℕ
  grid : List (List TerrainTile)
  deriving DecidableEq, Repr

namespace TerrainManager

/-- `_initialize_grid` (lines 49-63). -/
def initializeGrid (width height tileSize : ℕ) (defaultTerrain : TerrainType) :
    List (List TerrainTile) :=
  (List.range height).map fun y =>
    (List.range width).map fun x =>
      { terrainData := TerrainFactory.create defaultTerrain
        gridX := x, gridY := y, tileSize := tileSize }

/-- `__init__` (lines 25-47) with the default GRASS terrain. -/
def new (width height tileSize : ℕ) : TerrainManager :=
  { width := width, height := height, tileSize := tileSize
    grid := initializeGrid width height tileSize .GRASS }

/-- The inner `enumerate(row)` loop of `set_terrain_from_grid`
(lines 90-94), building the replacement tiles of one row. -/
def buildRow (tileSize y : ℕ) : ℕ → List TerrainType → List TerrainTile
  | _, [] => []
  | x, ty :: rest =>
      { terrainData := TerrainFactory.create ty, gridX := x, gridY := y,
        tileSize := tileSize } :: buildRow tileSize y (x + 1) rest

/-- The outer `enumerate(terrain_grid)` loop of
`set_terrain_from_grid` (lines 83-94). -/
def buildRows (tileSize : ℕ) : ℕ → List (List TerrainType) → List (List TerrainTile)
  | _, [] => []
  | y, row :: rest => buildRow tileSize y 0 row :: buildRows tileSize (y + 1) rest

/-- The per-row width check of `set_terrain_from_grid` (lines 84-88). -/
def rowsWidthOk (width : ℕ) : List (List TerrainType) → Bool
  | [] => true
  | row :: rest => row.length == width && rowsWidthOk width rest

/-- `set_terrain_from_grid` (lines 65-94): dimension checks, then every
cell is replaced, so the result carries the rebuilt grid.  (In the
source a width failure partway through leaves the earlier rows already
replaced; the claims only exercise grids that pass both checks, where
the behaviours coincide.) -/
def setTerrainFromGrid (m : TerrainManager)
    (terrainGrid : List (List TerrainType)) : Except String TerrainManager :=
  if terrainGrid.length ≠ m.height then .error "invalid grid height"
  else if ¬ rowsWidthOk m.width terrainGrid then .error "invalid grid width"
  else .ok { m with grid := buildRows m.tileSize 0 terrainGrid }

/-- `get_tile_at_grid` (lines 96-110), restricted to the
natural-number indices the saver uses (the source also rejects
negative indices). -/
def getTileAtGrid (m : TerrainManager) (x y : ℕ) : Option TerrainTile :=
  if x < m.width ∧ y < m.height then
    m.grid[y]?.bind fun row => row[x]?
  else none

/-- A manager whose grid matches its declared dimensions (true of
every manager built by `__init__` / `set_terrain_from_grid`). -/
def Valid (m : TerrainManager) : Prop :=
  m.grid.length = m.height ∧ ∀ row ∈ m.grid, row.length = m.width

/-- The grid of terrain types, tile for tile. -/
def typeGrid (m : TerrainManager) : List (List TerrainType) :=
  m.grid.map fun row => row.map fun tile => tile.terrainData.terrainType

end TerrainManager

/-- `.name` of the Python `TerrainType` enum members. -/
def terrainTypeName : TerrainType → String
  | .ASPHALT => "ASPHALT"
  | .GRASS => "GRASS"
  | .SAND => "SAND"
  | .MUD => "MUD"
  | .GRAVEL => "GRAVEL"
  | .DIRT => "DIRT"
  | .CONCRETE => "CONCRETE"

/-- `TerrainType[terrain_name]`: enum lookup by name, `none` for the
`KeyError` case (re-raised as a ValueError by the loader). -/
def terrainTypeOfName (s : String) : Option TerrainType :=
  if s = "ASPHALT" then some .ASPHALT
  else if s = "GRASS" then some .GRASS
  else if s = "SAND" then some .SAND
  else if s = "MUD" then some .MUD
  else if s = "GRAVEL" then some .GRAVEL
  else if s = "DIRT" then some .DIRT
  else if s = "CONCRETE" then some .CONCRETE
  else none

/-- The JSON-like object written by `save_to_file` (all fields are
always written, so the `KeyError` branch of `load_from_dict` for
missing fields concerns inputs this typed object cannot represent). -/
structure MapDict where
  name : String
  width : ℕ
  height : ℕ
  tileSize : ℕ
  terrainGrid : List (List String)
  deriving DecidableEq, Repr

namespace TerrainMapLoader

/-- The grid of terrain-type names built by `save_to_file`
(lines 140-150), with the GRASS fallback for missing tiles. -/
def savedGrid (m : TerrainManager) : List (List String) :=
  (List.range m.height).map fun y =>
    (List.range m.width).map fun x =>
      match m.getTileAtGrid x y with
      | some tile => terrainTypeName tile.terrainData.terrainType
      | none => "GRASS"

/-- `save_to_file` (lines 124-165): the JSON object written to disk. -/
def saveToFile (m : TerrainManager) (mapName : String) : MapDict :=
  { name := mapName, width := m.width, height := m.height
    tileSize := m.tileSize, terrainGrid := savedGrid m }

/-- The name-conversion loop of `load_from_dict` for one row
(lines 102-113). -/
def parseNames : List String → Except String (List TerrainType)
  | [] => .ok []
  | s :: rest =>
    match terrainTypeOfName s with
    | none => .error "invalid terrain type"
    | some ty => (parseNames rest).map fun l => ty :: l

/-- The row loop of `load_from_dict` (lines 95-113): width check, then
name conversion. -/
def parseGrid (width : ℕ) : List (List String) → Except String (List (List TerrainType))
  | [] => .ok []
  | row :: rest =>
    if row.length ≠ width then .error "invalid grid width"
    else
      match parseNames row with
      | .error e => .error e
      | .ok tys => (parseGrid width rest).map fun g => tys :: g

/-- `load_from_dict` (lines 61-122): height check, grid parsing, then
a fresh manager configured through `set_terrain_from_grid`. -/
def loadFromDict (d : MapDict) : Except String TerrainManager :=
  if d.terrainGrid.length ≠ d.height then .error "invalid grid height"
  else
    match parseGrid d.width d.terrainGrid with
    | .error e => .error e
    | .ok terrainGrid =>
        (TerrainManager.new d.width d.height d.tileSize).setTerrainFromGrid terrainGrid

end TerrainMapLoader

/-- The factory preserves the requested terrain type. -/
theorem create_terrainType (ty : TerrainType) :
    (TerrainFactory.create ty).terrainType = ty := by
  cases ty <;> rfl

/-- Enum lookup inverts the enum member name. -/
theorem terrainTypeOfName_name (ty : TerrainType) :
    terrainTypeOfName (terrainTypeName ty) = some ty := by
  cases ty <;> rfl

/-- Parsing the printed names of a row of types returns the row. -/
theorem parseNames_names (ts : List TerrainType) :
    TerrainMapLoader.parseNames (ts.map terrainTypeName) = .ok ts := by
  induction ts with
  | nil => rfl
  | cons ty rest ih =>
      simp [TerrainMapLoader.parseNames, terrainTypeOfName_name, ih, Except.map]

/-- Parsing the printed names of a grid of types of uniform width
returns the grid. -/
theorem parseGrid_names (w : ℕ) (tss : List (List TerrainType))
    (h : ∀ row ∈ tss, row.length = w) :
    TerrainMapLoader.parseGrid w (tss.map (·.map terrainTypeName)) = .ok tss := by
  induction tss with
  | nil => rfl
  | cons row rest ih =>
      have hw : (row.map terrainTypeName).length = w := by
        simpa using h row (List.mem_cons_self _ _)
      simp [TerrainMapLoader.parseGrid, hw, parseNames_names, Except.map,
        ih fun r hr => h r (List.mem_cons_of_mem _ hr)]

/-- The rebuilt row carries exactly the requested types. -/
theorem buildRow_types (tileSize y : ℕ) (row : List TerrainType) :
    ∀ x0, (TerrainManager.buildRow tileSize y x0 row).map
      (fun tile => tile.terrainData.terrainType) = row := by
  induction row with
  | nil => intro x0; rfl
  | cons ty rest ih =>
      intro x0
      simp [TerrainManager.buildRow, create_terrainType, ih]

/-- The rebuilt grid carries exactly the requested types. -/
theorem buildRows_types (tileSize : ℕ) (rows : List (List TerrainType)) :
    ∀ y0, (TerrainManager.buildRows tileSize y0 rows).map
      (fun row => row.map fun tile => tile.terrainData.terrainType) = rows := by
  induction rows with
  | nil => intro y0; rfl
  | cons row rest ih =>
      intro y0
      simp [TerrainManager.buildRows, buildRow_types, ih]

/-- Uniform-width grids pass the per-row width check. -/
theorem rowsWidthOk_of_widths (w : ℕ) (tss : List (List TerrainType))
    (h : ∀ row ∈ tss, row.length = w) :
    TerrainManager.rowsWidthOk w tss = true := by
  induction tss with
  | nil => rfl
  | cons row rest ih =>
      simp [TerrainManager.rowsWidthOk, h row (List.mem_cons_self _ _),
        ih fun r hr => h r (List.mem_cons_of_mem _ hr)]

/-- On a well-dimensioned manager the saved grid is exactly the
printed type grid. -/
theorem savedGrid_eq (m : TerrainManager) (hv : m.Valid) :
    TerrainMapLoader.savedGrid m
      = (TerrainManager.typeGrid m).map (·.map terrainTypeName) := by
  apply List.ext_getElem?
  intro y
  rw [TerrainMapLoader.savedGrid, TerrainManager.typeGrid]
  by_cases hy : y < m.height
  · have hyg : y < m.grid.length := by rw [hv.1]; exact hy
    rw [List.getElem?_map, List.getElem?_range hy, List.getElem?_map,
      List.getElem?_map, List.getElem?_eq_getElem hyg]
    simp only [Option.map_some', Option.some.injEq]
    apply List.ext_getElem?
    intro x
    have hrl : m.grid[y].length = m.width := hv.2 _ (List.getElem_mem hyg)
    by_cases hx : x < m.width
    · have hxr : x < m.grid[y].length := by rw [hrl]; exact hx
      rw [List.getElem?_map, List.getElem?_range hx, List.getElem?_map,
        List.getElem?_map, List.getElem?_eq_getElem hxr]
      simp only [Option.map_some', Option.some.injEq]
      rw [TerrainManager.getTileAtGrid, if_pos ⟨hx, hy⟩,
        List.getElem?_eq_getElem hyg]
      simp [List.getElem?_eq_getElem hxr]
    · rw [List.getElem?_map, List.getElem?_map, List.getElem?_map]
      rw [List.getElem?_eq_none (by simpa using not_lt.mp hx),
        List.getElem?_eq_none (by rw [hrl]; exact not_lt.mp hx)]
      rfl
  · rw [List.getElem?_map, List.getElem?_map, List.getElem?_map]
    rw [List.getElem?_eq_none (by simpa using not_lt.mp hy),
      List.getElem?_eq_none (by rw [hv.1]; exact not_lt.mp hy)]
    rfl

/-- Rows of the type grid of a well-dimensioned manager have the
declared width. -/
theorem typeGrid_widths (m : TerrainManager) (hv : m.Valid) :
    ∀ row ∈ TerrainManager.typeGrid m, row.length = m.width := by
  intro row hrow
  rw [TerrainManager.typeGrid] at hrow
  obtain ⟨r0, hr0, rfl⟩ := List.mem_map.mp hrow
  simpa using hv.2 r0 hr0

/-- C8: saving a well-dimensioned manager and loading the result back
succeeds and reproduces the width, height, tile size and the grid of
terrain types tile for tile. -/
theorem terrain_map_round_trip (m : TerrainManager) (mapName : String)
    (hv : m.Valid) :
    ∃ m2, TerrainMapLoader.loadFromDict (TerrainMapLoader.saveToFile m mapName)
        = .ok m2
      ∧ m2.width = m.width ∧ m2.height = m.height ∧ m2.tileSize = m.tileSize
      ∧ TerrainManager.typeGrid m2 = TerrainManager.typeGrid m := by
  refine ⟨⟨m.width, m.height, m.tileSize,
    TerrainManager.buildRows m.tileSize 0 (TerrainManager.typeGrid m)⟩,
    ?_, rfl, rfl, rfl, ?_⟩
  · have htg : (TerrainManager.typeGrid m).length = m.height := by
      simpa [TerrainManager.typeGrid] using hv.1
    have htg2 : ((TerrainManager.typeGrid m).map (·.map terrainTypeName)).length
        = m.height := by rw [List.length_map]; exact htg
    rw [TerrainMapLoader.loadFromDict, TerrainMapLoader.saveToFile]
    dsimp only [TerrainManager.new]
    rw [savedGrid_eq m hv, if_neg (not_ne_iff.mpr htg2),
      parseGrid_names m.width (TerrainManager.typeGrid m) (typeGrid_widths m hv)]
    dsimp only [TerrainManager.setTerrainFromGrid]
    rw [if_neg (not_ne_iff.mpr htg),
      if_neg (not_not_intro (rowsWidthOk_of_widths m.width _ (typeGrid_widths m hv)))]
  · rw [TerrainManager.typeGrid]
    exact buildRows_types m.tileSize (TerrainManager.typeGrid m) 0

/-- Witness for `terrain_map_round_trip` on a concrete 2 by 1 grass
map. -/
theorem terrain_map_round_trip_witness :
    (TerrainManager.new 2 1 32).Valid
    ∧ ∃ m2, TerrainMapLoader.loadFromDict
          (TerrainMapLoader.saveToFile (TerrainManager.new 2 1 32) "Custom Map")
        = .ok m2
      ∧ m2.width = (TerrainManager.new 2 1 32).width
      ∧ m2.height = (TerrainManager.new 2 1 32).height
      ∧ m2.tileSize = (TerrainManager.new 2 1 32).tileSize
      ∧ TerrainManager.typeGrid m2 = TerrainManager.typeGrid (TerrainManager.new 2 1 32) := by
  have hv : (TerrainManager.new 2 1 32).Valid := by
    constructor
    · rfl
    · intro row hrow
      simp [TerrainManager.new, TerrainManager.initializeGrid, List.range_succ] at hrow
      subst hrow
      rfl
  exact ⟨hv, terrain_map_round_trip (TerrainManager.new 2 1 32) "Custom Map" hv⟩

/-! ### 2D vectors over the reals (src/utils/vector2.py) -/

/-- `Vector2`, components standing for Python floats. -/
structure Vector2 where
  x : ℝ
  y : ℝ

namespace Vector2

/-- `__add__`. -/
def add (v w : Vector2) : Vector2 := ⟨v.x + w.x, v.y + w.y⟩

/-- `__mul__` by a scalar. -/
def smul (v : Vector2) (k : ℝ) : Vector2 := ⟨v.x * k, v.y * k⟩

/-- `__truediv__` (lines 39-43): raises ValueError on a zero scalar. -/
noncomputable def div (v : Vector2) (k : ℝ) : Except PyExc Vector2 :=
  if k = 0 then .error .valueError else .ok ⟨v.x / k, v.y / k⟩

/-- `length` (lines 63-70). -/
noncomputable def length (v : Vector2) : ℝ :=
  Real.sqrt (v.x * v.x + v.y * v.y)

/-- `normalize` (lines 82-95): raises ValueError on a zero-length
vector, otherwise divides the components by the length. -/
noncomputable def normalize (v : Vector2) : Except PyExc Vector2 :=
  if v.length = 0 then .error .valueError
  else .ok ⟨v.x / v.length, v.y / v.length⟩

/-- `Vector2.zero()`. -/
def zero : Vector2 := ⟨0, 0⟩

end Vector2

/-- C9 as stated is false: `normalize()` of the zero vector raises
`ValueError` instead of returning a defined default result. -/
theorem normalize_zero_cex :
    Vector2.normalize ⟨0, 0⟩ = .error .valueError := by
  rw [Vector2.normalize, if_pos]
  show Vector2.length ⟨0, 0⟩ = 0
  simp [Vector2.length]

/-- C9 (amended): `normalize()` of every zero-length vector fails with
an explicit `ValueError` (it does not return a vector). -/
theorem normalize_zero_raises (v : Vector2) (h : v.length = 0) :
    v.normalize = .error .valueError := by
  rw [Vector2.normalize, if_pos h]

/-- Witness for `normalize_zero_raises` at the zero vector. -/
theorem normalize_zero_raises_witness :
    Vector2.length ⟨0, 0⟩ = 0
    ∧ Vector2.normalize ⟨0, 0⟩ = .error .valueError := by
  have h : Vector2.length ⟨0, 0⟩ = 0 := by simp [Vector2.length]
  exact ⟨h, normalize_zero_raises ⟨0, 0⟩ h⟩

/-! ### Transform component (src/components/transform_component.py) -/

/-- Python `math.atan2 y x`: the argument of the complex number
`x + y i` (`atan2(0, 0) = 0` in Python, and `Complex.arg 0 = 0`). -/
noncomputable def atan2 (y x : ℝ) : ℝ :=
  Complex.arg ⟨x, y⟩

/-- `math.radians`. -/
noncomputable def radians (deg : ℝ) : ℝ := deg * Real.pi / 180

/-- Fields of a `TransformComponent`. -/
structure TransformState where
  position : Vector2
  rotation : ℝ
  scale : Vector2

namespace TransformComponent

/-- The `rotation` setter (lines 49-53): stores
`atan2(sin value, cos value)`. -/
noncomputable def setRotation (t : TransformState) (value : ℝ) : TransformState :=
  { t with rotation := atan2 (Real.sin value) (Real.cos value) }

/-- The `rotation_degrees` setter (lines 60-63): stores
`math.radians(value)` directly, without the normalising setter. -/
noncomputable def setRotationDegrees (t : TransformState) (value : ℝ) : TransformState :=
  { t with rotation := radians value }

/-- `rotate` (lines 101-108): goes through the `rotation` setter. -/
noncomputable def rotate (t : TransformState) (angle : ℝ) : TransformState :=
  setRotation t (t.rotation + angle)

/-- `rotate_degrees` (lines 110-117). -/
noncomputable def rotateDegrees (t : TransformState) (angle : ℝ) : TransformState :=
  rotate t (radians angle)

/-- `look_at` (lines 119-128): writes `direction.angle()` to the raw
field when the direction is nonzero. -/
noncomputable def lookAt (t : TransformState) (target : Vector2) : TransformState :=
  let direction : Vector2 := ⟨target.x - t.position.x, target.y - t.position.y⟩
  if direction.length > 0 then { t with rotation := atan2 direction.y direction.x }
  else t

/-- `look_in_direction` (lines 130-138). -/
noncomputable def lookInDirection (t : TransformState) (direction : Vector2) :
    TransformState :=
  if direction.length > 0 then { t with rotation := atan2 direction.y direction.x }
  else t

end TransformComponent

/-- A freshly constructed transform (`__init__`, lines 21-32):
rotation 0. -/
noncomputable def transformInit : TransformState :=
  { position := Vector2.zero, rotation := 0, scale := ⟨1, 1⟩ }

/-- One public mutation of the transform's orientation. -/
inductive RotMutation where
  | setRotation (value : ℝ)
  | setRotationDegrees (value : ℝ)
  | rotate (angle : ℝ)
  | rotateDegrees (angle : ℝ)
  | lookAt (target : Vector2)
  | lookInDirection (direction : Vector2)

/-- Effect of one orientation mutation. -/
noncomputable def applyRotMutation (t : TransformState) : RotMutation → TransformState
  | .setRotation value => TransformComponent.setRotation t value
  | .setRotationDegrees value => TransformComponent.setRotationDegrees t value
  | .rotate angle => TransformComponent.rotate t angle
  | .rotateDegrees angle => TransformComponent.rotateDegrees t angle
  | .lookAt target => TransformComponent.lookAt t target
  | .lookInDirection direction => TransformComponent.lookInDirection t direction

/-- A sequence of orientation mutations, applied in order. -/
noncomputable def applyRotMutations (t : TransformState) (ms : List RotMutation) :
    TransformState :=
  ms.foldl applyRotMutation t

/-- The mutations that route through a normalising write (all of them
except the `rotation_degrees` setter). -/
def RotMutation.Normalizing : RotMutation → Prop
  | .setRotationDegrees _ => False
  | _ => True

/-- `atan2` always lands in the interval `(-pi, pi]`. -/
theorem atan2_mem_Ioc (y x : ℝ) : atan2 y x ∈ Set.Ioc (-Real.pi) Real.pi :=
  Complex.arg_mem_Ioc _

/-- C10 as stated is false: the `rotation_degrees` setter bypasses
normalisation, so setting 720 degrees stores `4 * pi`, outside
`(-pi, pi]`. -/
theorem rotation_normalized_cex :
    (applyRotMutations transformInit [RotMutation.setRotationDegrees 720]).rotation
        = 4 * Real.pi
    ∧ (applyRotMutations transformInit [RotMutation.setRotationDegrees 720]).rotation
        ∉ Set.Ioc (-Real.pi) Real.pi := by
  have hval : (applyRotMutations transformInit
      [RotMutation.setRotationDegrees 720]).rotation = 720 * Real.pi / 180 := rfl
  have hval4 : (720 : ℝ) * Real.pi / 180 = 4 * Real.pi := by ring
  constructor
  · rw [hval, hval4]
  · rw [hval, hval4]
    intro hmem
    have hpi := Real.pi_pos
    have := hmem.2
    linarith

/-- One normalising mutation keeps the rotation in `(-pi, pi]`. -/
theorem applyRotMutation_mem (t : TransformState) (m : RotMutation)
    (hm : m.Normalizing) (ht : t.rotation ∈ Set.Ioc (-Real.pi) Real.pi) :
    (applyRotMutation t m).rotation ∈ Set.Ioc (-Real.pi) Real.pi := by
  cases m with
  | setRotation value => exact atan2_mem_Ioc _ _
  | setRotationDegrees value => exact hm.elim
  | rotate angle => exact atan2_mem_Ioc _ _
  | rotateDegrees angle => exact atan2_mem_Ioc _ _
  | lookAt target =>
      unfold applyRotMutation TransformComponent.lookAt
      dsimp only
      split_ifs with h
      · exact atan2_mem_Ioc _ _
      · exact ht
  | lookInDirection direction =>
      unfold applyRotMutation TransformComponent.lookInDirection
      dsimp only
      split_ifs with h
      · exact atan2_mem_Ioc _ _
      · exact ht

/-- Any sequence of normalising mutations keeps the rotation in
`(-pi, pi]`. -/
theorem applyRotMutations_mem (ms : List RotMutation) :
    ∀ (t : TransformState), t.rotation ∈ Set.Ioc (-Real.pi) Real.pi →
      (∀ m ∈ ms, RotMutation.Normalizing m) →
      (applyRotMutations t ms).rotation ∈ Set.Ioc (-Real.pi) Real.pi := by
  induction ms with
  | nil => intro t ht _; exact ht
  | cons m rest ih =>
      intro t ht hall
      exact ih (applyRotMutation t m)
        (applyRotMutation_mem t m (hall m (List.mem_cons_self _ _)) ht)
        (fun x hx => hall x (List.mem_cons_of_mem _ hx))

/-- C10 (amended): after any sequence of the normalising orientation
mutations (the `rotation` setter, `rotate`, `rotate_degrees`,
`look_at`, `look_in_direction` — but not the `rotation_degrees`
setter) the stored rotation lies in `(-pi, pi]`. -/
theorem rotation_normalized (ms : List RotMutation)
    (h : ∀ m ∈ ms, RotMutation.Normalizing m) :
    (applyRotMutations transformInit ms).rotation
      ∈ Set.Ioc (-Real.pi) Real.pi :=
  applyRotMutations_mem ms transformInit
    ⟨neg_neg_of_pos Real.pi_pos, Real.pi_pos.le⟩ h

/-- Witness for `rotation_normalized` on a concrete mutation
sequence. -/
theorem rotation_normalized_witness :
    (∀ m ∈ [RotMutation.rotate 10, RotMutation.lookInDirection ⟨1, 1⟩],
      RotMutation.Normalizing m)
    ∧ (applyRotMutations transformInit
        [RotMutation.rotate 10, RotMutation.lookInDirection ⟨1, 1⟩]).rotation
      ∈ Set.Ioc (-Real.pi) Real.pi := by
  have hall : ∀ m ∈ [RotMutation.rotate 10, RotMutation.lookInDirection ⟨1, 1⟩],
      RotMutation.Normalizing m := by
    intro m hm
    simp only [List.mem_cons, List.not_mem_nil, or_false] at hm
    rcases hm with h | h <;> subst h <;> trivial
  exact ⟨hall, rotation_normalized _ hall⟩

/-! ### Physics component (src/components/physics_component.py) -/

/-- `GameConfig.GRAVITY` as a real. -/
noncomputable def GRAVITY : ℝ := 9.81

/-- Fields of a `PhysicsComponent`, together with the attached
transform's position (the one transform field `update` writes through
`translate`). -/
structure PhysicsState where
  mass : ℝ
  drag : ℝ
  maxSpeed : ℝ
  useGravity : Bool
  velocity : Vector2
  acceleration : Vector2
  accumulatedForces : Vector2
  transformAttached : Bool
  transformPos : Vector2

namespace PhysicsComponent

/-- `apply_force` (lines 68-77): accumulation only. -/
def applyForce (p : PhysicsState) (force : Vector2) : PhysicsState :=
  { p with accumulatedForces := p.accumulatedForces.add force }

/-- `apply_impulse` (lines 79-88): `velocity += impulse / mass`, where
`Vector2.__truediv__` raises ValueError on a zero mass. -/
noncomputable def applyImpulse (p : PhysicsState) (impulse : Vector2) :
    Except PyExc PhysicsState :=
  match impulse.div p.mass with
  | .error e => .error e
  | .ok dv => .ok { p with velocity := p.velocity.add dv }

/-- `update` (lines 108-148): acceleration from the accumulated forces
(`Vector2.__truediv__`, raising on a zero mass) plus gravity when
enabled, Euler velocity step, 60 Hz-normalised exponential drag
(`Real.rpow` stands for Python `pow`; for a negative drag base Python
would leave the reals, outside this model), max-speed clamp through
`normalize`, translation by `velocity * dt`, and force reset.  The
gravity term `Vector2(0, GRAVITY * mass) / mass` is written
component-wise: its division can no longer raise once the first one
succeeded. -/
noncomputable def update (p : PhysicsState) (dt : ℝ) : Except PyExc PhysicsState :=
  if p.transformAttached = false then .ok p
  else
    match p.accumulatedForces.div p.mass with
    | .error e => .error e
    | .ok acc0 =>
      let acc := if p.useGravity
        then acc0.add ⟨0 / p.mass, GRAVITY * p.mass / p.mass⟩
        else acc0
      let v1 := p.velocity.add (acc.smul dt)
      let v2 := v1.smul (p.drag ^ (dt * 60))
      if v2.length > p.maxSpeed then
        match v2.normalize with
        | .error e => .error e
        | .ok u =>
          .ok { p with
                acceleration := acc
                velocity := u.smul p.maxSpeed
                transformPos := p.transformPos.add ((u.smul p.maxSpeed).smul dt)
                accumulatedForces := Vector2.zero }
      else
        .ok { p with
              acceleration := acc
              velocity := v2
              transformPos := p.transformPos.add (v2.smul dt)
              accumulatedForces := Vector2.zero }

end PhysicsComponent

/-- Scaling a vector to its own length has the requested length. -/
theorem length_clamped (v : Vector2) (k : ℝ) (h : 0 < v.length) (hk : 0 ≤ k) :
    Vector2.length ⟨v.x / v.length * k, v.y / v.length * k⟩ = k := by
  have hL2 : v.length ^ 2 = v.x * v.x + v.y * v.y := by
    rw [Vector2.length, sq,
      Real.mul_self_sqrt (add_nonneg (mul_self_nonneg _) (mul_self_nonneg _))]
  rw [Vector2.length]
  dsimp only
  rw [show v.x / v.length * k * (v.x / v.length * k)
      + v.y / v.length * k * (v.y / v.length * k)
      = k ^ 2 * ((v.x * v.x + v.y * v.y) / v.length ^ 2) by ring]
  rw [← hL2, div_self (pow_ne_zero 2 h.ne'), mul_one, Real.sqrt_sq hk]

/-- C3: with a transform attached, a nonzero mass and a nonnegative
max speed, `update(dt)` computes, in order: the acceleration
`accumulatedForces / mass` (plus `(0, GRAVITY)` — gravity force over
mass — when gravity is enabled), the Euler velocity step, the
`drag ^ (dt * 60)` factor, the max-speed clamp, the translation of the
transform by `velocity * dt`, and the force reset; afterwards
`|velocity| <= max_speed` and the accumulated forces are zero.
`apply_force` only accumulates, and `apply_impulse` adds
`impulse / mass` directly to the velocity. -/
theorem physics_update_contract (p : PhysicsState) (dt : ℝ)
    (hattached : p.transformAttached = true) (hmass : p.mass ≠ 0)
    (hmax : 0 ≤ p.maxSpeed) :
    (∃ a v2 p2,
      a = (if p.useGravity
          then (Vector2.mk (p.accumulatedForces.x / p.mass)
                (p.accumulatedForces.y / p.mass)).add ⟨0, GRAVITY⟩
          else ⟨p.accumulatedForces.x / p.mass, p.accumulatedForces.y / p.mass⟩)
      ∧ v2 = (p.velocity.add (a.smul dt)).smul (p.drag ^ (dt * 60))
      ∧ PhysicsComponent.update p dt = .ok p2
      ∧ p2.acceleration = a
      ∧ p2.velocity = (if v2.length > p.maxSpeed
          then ⟨v2.x / v2.length * p.maxSpeed, v2.y / v2.length * p.maxSpeed⟩
          else v2)
      ∧ p2.transformPos = p.transformPos.add (p2.velocity.smul dt)
      ∧ p2.accumulatedForces = Vector2.zero
      ∧ p2.velocity.length ≤ p.maxSpeed)
    ∧ (∀ (q : PhysicsState) (f : Vector2), PhysicsComponent.applyForce q f
        = { q with accumulatedForces := q.accumulatedForces.add f })
    ∧ (∀ (q : PhysicsState) (j : Vector2), q.mass ≠ 0 →
        PhysicsComponent.applyImpulse q j
          = .ok { q with velocity := q.velocity.add ⟨j.x / q.mass, j.y / q.mass⟩ }) := by
  refine ⟨?_, fun q f => rfl, fun q j hq => by
    rw [PhysicsComponent.applyImpulse, Vector2.div, if_neg hq]⟩
  have hdiv : p.accumulatedForces.div p.mass
      = .ok ⟨p.accumulatedForces.x / p.mass, p.accumulatedForces.y / p.mass⟩ := by
    rw [Vector2.div, if_neg hmass]
  have hgrav : (⟨0 / p.mass, GRAVITY * p.mass / p.mass⟩ : Vector2) = ⟨0, GRAVITY⟩ := by
    rw [zero_div, mul_div_cancel_right₀ _ hmass]
  unfold PhysicsComponent.update
  rw [hattached]
  simp only [Bool.true_eq_false, if_false]
  rw [hdiv]
  dsimp only
  rw [hgrav]
  by_cases hcl : ((p.velocity.add
      (((if p.useGravity
        then (Vector2.mk (p.accumulatedForces.x / p.mass)
              (p.accumulatedForces.y / p.mass)).add ⟨0, GRAVITY⟩
        else ⟨p.accumulatedForces.x / p.mass,
          p.accumulatedForces.y / p.mass⟩) : Vector2).smul dt)).smul
      (p.drag ^ (dt * 60))).length > p.maxSpeed
  · have hpos : 0 < ((p.velocity.add
        (((if p.useGravity
          then (Vector2.mk (p.accumulatedForces.x / p.mass)
                (p.accumulatedForces.y / p.mass)).add ⟨0, GRAVITY⟩
          else ⟨p.accumulatedForces.x / p.mass,
            p.accumulatedForces.y / p.mass⟩) : Vector2).smul dt)).smul
        (p.drag ^ (dt * 60))).length := lt_of_le_of_lt hmax hcl
    rw [if_pos hcl, Vector2.normalize, if_neg hpos.ne']
    dsimp only
    refine ⟨_, _, _, rfl, rfl, rfl, rfl, ?_, rfl, rfl, ?_⟩
    · rw [if_pos hcl]
      rfl
    · exact le_of_eq (length_clamped _ p.maxSpeed hpos hmax)
  · rw [if_neg hcl]
    refine ⟨_, _, _, rfl, rfl, rfl, rfl, ?_, rfl, rfl, ?_⟩
    · rw [if_neg hcl]
    · exact not_lt.mp hcl

/-- A concrete physics component: unit mass, drag 1, max speed 500,
gravity off, velocity (3, 4). -/
noncomputable def physicsTest : PhysicsState :=
  { mass := 1, drag := 1, maxSpeed := 500, useGravity := false
    velocity := ⟨3, 4⟩, acceleration := ⟨0, 0⟩, accumulatedForces := ⟨0, 0⟩
    transformAttached := true, transformPos := ⟨0, 0⟩ }

/-- Witness for `physics_update_contract` at `physicsTest` with
`dt = 0`. -/
theorem physics_update_contract_witness :
    physicsTest.transformAttached = true ∧ physicsTest.mass ≠ 0
    ∧ 0 ≤ physicsTest.maxSpeed
    ∧ ((∃ a v2 p2,
      a = (if physicsTest.useGravity
          then (Vector2.mk (physicsTest.accumulatedForces.x / physicsTest.mass)
                (physicsTest.accumulatedForces.y / physicsTest.mass)).add ⟨0, GRAVITY⟩
          else ⟨physicsTest.accumulatedForces.x / physicsTest.mass,
            physicsTest.accumulatedForces.y / physicsTest.mass⟩)
      ∧ v2 = (physicsTest.velocity.add (a.smul 0)).smul (physicsTest.drag ^ ((0:ℝ) * 60))
      ∧ PhysicsComponent.update physicsTest 0 = .ok p2
      ∧ p2.acceleration = a
      ∧ p2.velocity = (if v2.length > physicsTest.maxSpeed
          then ⟨v2.x / v2.length * physicsTest.maxSpeed,
            v2.y / v2.length * physicsTest.maxSpeed⟩
          else v2)
      ∧ p2.transformPos = physicsTest.transformPos.add (p2.velocity.smul 0)
      ∧ p2.accumulatedForces = Vector2.zero
      ∧ p2.velocity.length ≤ physicsTest.maxSpeed)
    ∧ (∀ (q : PhysicsState) (f : Vector2), PhysicsComponent.applyForce q f
        = { q with accumulatedForces := q.accumulatedForces.add f })
    ∧ (∀ (q : PhysicsState) (j : Vector2), q.mass ≠ 0 →
        PhysicsComponent.applyImpulse q j
          = .ok { q with velocity := q.velocity.add ⟨j.x / q.mass, j.y / q.mass⟩ })) :=
  ⟨rfl, by norm_num [physicsTest], by norm_num [physicsTest],
   physics_update_contract physicsTest 0 rfl (by norm_num [physicsTest])
     (by norm_num [physicsTest])⟩

/-- Witness for `performance_zone_table` at the initial stamina
component. -/
theorem performance_zone_table_witness :
    staminaInit.enabled = true
    ∧ ((StaminaComponent.updateCore staminaInit 0 none 0).currentZone
        = zoneOfPercentage
            (StaminaComponent.getPercentage (StaminaComponent.updateCore staminaInit 0 none 0))
      ∧ (StaminaComponent.updateCore { staminaInit with currentStamina := 35 } 0 none 0).currentZone
          = PerformanceZone.CRITICAL
      ∧ StaminaComponent.getSpeedMultiplier { staminaInit with currentZone := .OPTIMAL } = 1
      ∧ StaminaComponent.getSpeedMultiplier { staminaInit with currentZone := .MODERATE } = 0.9
      ∧ StaminaComponent.getSpeedMultiplier { staminaInit with currentZone := .CRITICAL } = 0.7
      ∧ StaminaComponent.getSpeedMultiplier { staminaInit with currentZone := .EXHAUSTED } = 0.5) :=
  ⟨rfl, performance_zone_table staminaInit 0 none 0 rfl⟩

end CX2025
